import Mathlib

/-
Shallow embedding of the schema auto-migration engine and the inventory
CRUD operations of src/database.py (class DatabaseManager).

A SQLite database is modelled as an association list from table name to
table.  A table stores its live column list (name, declared type string),
its table-level constraint strings, and its rows.  A row is an association
list from column name to value, recording exactly the columns that were
explicitly written by an INSERT or UPDATE; a column absent from a row
stands for the column's default.  Secondary indexes are modelled by their
names only.  The ambient clock (datetime.now) is passed in explicitly as
a string, and the possibility that SQLite rejects an individual INSERT
during a data copy (a type or constraint error) is modelled by an
explicit predicate insertOk on the target table name and the row.
-/

namespace Inv

inductive Value where
| null : Value
| int (i : Int) : Value
| text (s : String) : Value
deriving DecidableEq

abbrev Row := List (String × Value)

structure Table where
  cols : List (String × String)
  constraints : List String
  rows : List Row
deriving DecidableEq

structure Db where
  tables : List (String × Table)
  indexes : List String
deriving DecidableEq

def lookupTable (db : Db) (n : String) : Option Table :=
  db.tables.lookup n

def setTable (db : Db) (n : String) (t : Table) : Db :=
  { db with tables := db.tables.filter (fun p => p.1 != n) ++ [(n, t)] }

def dropTable (db : Db) (n : String) : Db :=
  { db with tables := db.tables.filter (fun p => p.1 != n) }

def renameTable (db : Db) (oldName newName : String) : Db :=
  match lookupTable db oldName with
  | some t => setTable (dropTable db oldName) newName t
  | none => db

def modifyTable (db : Db) (n : String) (f : Table → Table) : Db :=
  match lookupTable db n with
  | some t => setTable db n (f t)
  | none => db

def tableRows (db : Db) (n : String) : List Row :=
  match lookupTable db n with
  | some t => t.rows
  | none => []

def appendRow (db : Db) (n : String) (r : Row) : Db :=
  modifyTable db n (fun t => { t with rows := t.rows ++ [r] })

def appendRows (db : Db) (n : String) (rs : List Row) : Db :=
  rs.foldl (fun d r => appendRow d n r) db

def updateRowsWhere (db : Db) (n c : String) (v : Value) (f : Row → Row) : Db :=
  modifyTable db n
    (fun t => { t with rows := t.rows.map (fun r => if r.lookup c == some v then f r else r) })

def deleteRowsWhere (db : Db) (n c : String) (v : Value) : Db :=
  modifyTable db n
    (fun t => { t with rows := t.rows.filter (fun r => !(r.lookup c == some v)) })

def findRowWhere (db : Db) (n c : String) (v : Value) : Option Row :=
  (tableRows db n).find? (fun r => r.lookup c == some v)

def setCol (r : Row) (c : String) (v : Value) : Row :=
  r.filter (fun p => p.1 != c) ++ [(c, v)]

/-- SELECT of the listed columns from one row: keeps exactly the columns of
common_columns that are populated in the row, in the order of common_columns. -/
def projectRow (common_columns : List String) (r : Row) : Row :=
  common_columns.filterMap (fun c => (r.lookup c).map (fun v => (c, v)))

/-- Intersection of expected and current column names, as computed in
DatabaseManager._recreate_table. -/
def commonColumns (expected_columns current_columns : List (String × String)) : List String :=
  (expected_columns.map Prod.fst).filter (fun c => (current_columns.map Prod.fst).contains c)

/-- Python truthiness of an optional string: None and the empty string are
falsy, so a or b falls through to b on both. -/
def orString (a : Option String) (b : String) : String :=
  match a with
  | some s => if s = "" then b else s
  | none => b

/-! ## Schema auto-migration engine (DatabaseManager) -/

/-- The table-specific relational constraints appended by
DatabaseManager._create_table, keyed on the exact table name. -/
def tableConstraints (table_name : String) : List String :=
  if table_name = "product_ingredients" then
    ["FOREIGN KEY (product_id) REFERENCES products (id) ON DELETE CASCADE",
     "FOREIGN KEY (ingredient_id) REFERENCES ingredients (id) ON DELETE CASCADE",
     "UNIQUE(product_id, ingredient_id)"]
  else if table_name = "group_products" then
    ["FOREIGN KEY (group_id) REFERENCES groups (id) ON DELETE CASCADE",
     "FOREIGN KEY (product_id) REFERENCES products (id) ON DELETE CASCADE",
     "UNIQUE(product_id)"]
  else if table_name = "group_parameters" then
    ["FOREIGN KEY (group_id) REFERENCES groups (id) ON DELETE CASCADE",
     "UNIQUE(group_id, name)"]
  else if table_name = "product_group_parameter_values" then
    ["FOREIGN KEY (product_id) REFERENCES products (id) ON DELETE CASCADE",
     "FOREIGN KEY (group_parameter_id) REFERENCES group_parameters (id) ON DELETE CASCADE",
     "UNIQUE(product_id, group_parameter_id)"]
  else []

/-- DatabaseManager._create_table: CREATE TABLE table_name with the given
column definitions plus the constraints selected by the table name. -/
def create_table (db : Db) (table_name : String) (columns : List (String × String)) : Db :=
  setTable db table_name
    { cols := columns, constraints := tableConstraints table_name, rows := [] }

/-- DatabaseManager._copy_data_safe: read all rows of old_table restricted to
common_columns and insert them one by one into new_table, skipping any row
whose individual insert fails. -/
def copy_data_safe (insertOk : String → Row → Bool) (db : Db) (old_table new_table : String)
    (common_columns : List String) : Db :=
  ((tableRows db old_table).map (projectRow common_columns)).foldl
    (fun d row => if insertOk new_table row then appendRow d new_table row else d) db

/-- The data-copy phase of DatabaseManager._recreate_table: if there are
common columns, try the single bulk INSERT..SELECT (which succeeds exactly
when every transferred row is accepted by the sibling table), and on failure
fall back to _copy_data_safe. -/
def copyCommonStep (insertOk : String → Row → Bool) (db : Db) (table_name : String)
    (expected_columns current_columns : List (String × String)) : Db :=
  let temp_table_name := table_name ++ "_new"
  let common := commonColumns expected_columns current_columns
  if common.isEmpty then db
  else
    let src := (tableRows db table_name).map (projectRow common)
    if src.all (fun r => insertOk temp_table_name r) then appendRows db temp_table_name src
    else copy_data_safe insertOk db table_name temp_table_name common

/-- DatabaseManager._recreate_table: create the sibling table under the
temporary name, copy the common-column data into it, drop the original
table, and rename the sibling to the original name. -/
def recreate_table (insertOk : String → Row → Bool) (db : Db) (table_name : String)
    (expected_columns current_columns : List (String × String)) : Db :=
  let temp_table_name := table_name ++ "_new"
  let db1 := create_table db temp_table_name expected_columns
  let db2 := copyCommonStep insertOk db1 table_name expected_columns current_columns
  let db3 := dropTable db2 table_name
  renameTable db3 temp_table_name table_name

/-- The four kinds of statement issued by a rebuild migration. -/
inductive MigOp where
| createTemp : MigOp
| copyCommon : MigOp
| dropOrig : MigOp
| renameTemp : MigOp
deriving DecidableEq

/-- The database effect of one rebuild-migration statement. -/
def applyMigOp (insertOk : String → Row → Bool) (table_name : String)
    (expected_columns current_columns : List (String × String)) (db : Db) : MigOp → Db
| MigOp.createTemp => create_table db (table_name ++ "_new") expected_columns
| MigOp.copyCommon => copyCommonStep insertOk db table_name expected_columns current_columns
| MigOp.dropOrig => dropTable db table_name
| MigOp.renameTemp => renameTable db (table_name ++ "_new") table_name

/-- The sequence of statements issued by DatabaseManager._recreate_table. -/
def recreateOps (expected_columns current_columns : List (String × String)) : List MigOp :=
  if (commonColumns expected_columns current_columns).isEmpty then
    [MigOp.createTemp, MigOp.dropOrig, MigOp.renameTemp]
  else
    [MigOp.createTemp, MigOp.copyCommon, MigOp.dropOrig, MigOp.renameTemp]

inductive MigrationOutcome where
| created : MigrationOutcome
| noOpMatched : MigrationOutcome
| rebuilt : MigrationOutcome
deriving DecidableEq

/-- DatabaseManager._migrate_table_schema: create the table when it does not
exist; otherwise diff the live column names against the expected ones and
either do nothing or rebuild.  The outcome records which branch ran. -/
def migrate_table_schema (insertOk : String → Row → Bool) (db : Db) (table_name : String)
    (expected_columns : List (String × String)) : Db × MigrationOutcome :=
  match lookupTable db table_name with
  | none => (create_table db table_name expected_columns, MigrationOutcome.created)
  | some t =>
    let current_columns := t.cols
    let expected_column_names := expected_columns.map Prod.fst
    let current_column_names := current_columns.map Prod.fst
    let columns_to_add := expected_column_names.filter
      (fun c => !(current_column_names.contains c))
    let columns_to_remove := current_column_names.filter
      (fun c => !(expected_column_names.contains c))
    if columns_to_add.isEmpty && columns_to_remove.isEmpty then
      (db, MigrationOutcome.noOpMatched)
    else
      (recreate_table insertOk db table_name expected_columns current_columns,
       MigrationOutcome.rebuilt)

/-- The index names created by DatabaseManager._create_indexes. -/
def expectedIndexes : List String :=
  ["idx_ingredients_barcode", "idx_products_barcode", "idx_products_date_mixed",
   "idx_product_ingredients_product", "idx_product_ingredients_ingredient",
   "idx_groups_order", "idx_group_products_group", "idx_group_products_product",
   "idx_group_parameters_group", "idx_product_param_values_product",
   "idx_product_param_values_parameter"]

/-- One CREATE INDEX IF NOT EXISTS statement: add the index name unless it
is already present. -/
def indexStep (d : Db) (idx : String) : Db :=
  if d.indexes.contains idx then d else { d with indexes := d.indexes ++ [idx] }

/-- DatabaseManager._create_indexes: CREATE INDEX IF NOT EXISTS for each
declared index. -/
def create_indexes (db : Db) : Db :=
  expectedIndexes.foldl indexStep db

/-- The expected_schema dictionary of DatabaseManager.__init__. -/
def expected_schema : List (String × List (String × String)) :=
  [("ingredients",
    [("id", "INTEGER PRIMARY KEY AUTOINCREMENT"),
     ("barcode_id", "TEXT UNIQUE NOT NULL"),
     ("name", "TEXT NOT NULL"),
     ("unit_cost", "REAL DEFAULT 0.0"),
     ("purchase_date", "DATE"),
     ("expiration_date", "DATE"),
     ("supplier", "TEXT"),
     ("is_flagged", "INTEGER DEFAULT 0"),
     ("last_updated", "DATETIME DEFAULT CURRENT_TIMESTAMP")]),
   ("products",
    [("id", "INTEGER PRIMARY KEY AUTOINCREMENT"),
     ("barcode_id", "TEXT UNIQUE NOT NULL"),
     ("product_name", "TEXT NOT NULL"),
     ("batch_number", "TEXT"),
     ("date_mixed", "DATE NOT NULL"),
     ("total_quantity", "REAL DEFAULT 0.0"),
     ("total_cost", "REAL DEFAULT 0.0"),
     ("amount", "INTEGER DEFAULT 0"),
     ("notes", "TEXT"),
     ("last_updated", "DATETIME DEFAULT CURRENT_TIMESTAMP")]),
   ("product_ingredients",
    [("id", "INTEGER PRIMARY KEY AUTOINCREMENT"),
     ("product_id", "INTEGER NOT NULL"),
     ("ingredient_id", "INTEGER NOT NULL"),
     ("quantity_used", "REAL NOT NULL"),
     ("cost_per_unit", "REAL DEFAULT 0.0")]),
   ("groups",
    [("id", "INTEGER PRIMARY KEY AUTOINCREMENT"),
     ("name", "TEXT NOT NULL"),
     ("display_order", "INTEGER DEFAULT 0"),
     ("is_collapsed", "INTEGER DEFAULT 0"),
     ("created_at", "DATETIME DEFAULT CURRENT_TIMESTAMP"),
     ("last_updated", "DATETIME DEFAULT CURRENT_TIMESTAMP")]),
   ("group_products",
    [("id", "INTEGER PRIMARY KEY AUTOINCREMENT"),
     ("group_id", "INTEGER NOT NULL"),
     ("product_id", "INTEGER NOT NULL")]),
   ("group_parameters",
    [("id", "INTEGER PRIMARY KEY AUTOINCREMENT"),
     ("group_id", "INTEGER NOT NULL"),
     ("name", "TEXT NOT NULL"),
     ("display_order", "INTEGER DEFAULT 0"),
     ("created_at", "DATETIME DEFAULT CURRENT_TIMESTAMP")]),
   ("product_group_parameter_values",
    [("id", "INTEGER PRIMARY KEY AUTOINCREMENT"),
     ("product_id", "INTEGER NOT NULL"),
     ("group_parameter_id", "INTEGER NOT NULL"),
     ("value", "TEXT"),
     ("last_updated", "DATETIME DEFAULT CURRENT_TIMESTAMP")]),
   ("inventory_events",
    [("id", "INTEGER PRIMARY KEY AUTOINCREMENT"),
     ("product_id", "INTEGER NOT NULL"),
     ("delta", "INTEGER NOT NULL"),
     ("event_title", "TEXT"),
     ("event_date", "DATE DEFAULT CURRENT_DATE"),
     ("created_at", "DATETIME DEFAULT CURRENT_TIMESTAMP")])]

/-- One iteration of the migration loop of init_database, threading the
database and accumulating the outcome. -/
def migStep (insertOk : String → Row → Bool) (acc : Db × List MigrationOutcome)
    (p : String × List (String × String)) : Db × List MigrationOutcome :=
  let r := migrate_table_schema insertOk acc.1 p.1 p.2
  (r.1, acc.2 ++ [r.2])

/-- The database component of the migration loop of init_database. -/
def migrateFold (insertOk : String → Row → Bool)
    (schema : List (String × List (String × String))) (db : Db) : Db :=
  schema.foldl (fun d p => (migrate_table_schema insertOk d p.1 p.2).1) db

/-- DatabaseManager.init_database: drop the legacy inventory table, migrate
every table of the schema in order, then create the indexes.  Also returns
the per-table migration outcomes in order. -/
def init_database (insertOk : String → Row → Bool) (db : Db)
    (schema : List (String × List (String × String))) : Db × List MigrationOutcome :=
  let db0 := dropTable db "inventory"
  let res := schema.foldl (migStep insertOk) (db0, ([] : List MigrationOutcome))
  (create_indexes res.1, res.2)

/-! ## Inventory store CRUD operations (DatabaseManager) -/

structure Response where
  success : Bool
  message : String
deriving DecidableEq

def success_response (message : String) : Response :=
  { success := true, message := message }

def error_response (e : String) : Response :=
  { success := false, message := e }

/-- Reading products.amount as Python current_row[0] or 0: a stored integer
is used as is, anything else falls back to 0. -/
def amount_or_zero (v : Option Value) : Int :=
  match v with
  | some (Value.int i) => i
  | _ => 0

/-- DatabaseManager._log_inventory_event: insert a delta row into
inventory_events unless the delta is zero; the event date falls back to the
current date (the explicit now parameter). -/
def log_inventory_event (now : String) (db : Db) (product_id delta : Int)
    (title : Option String) (event_date : Option String) : Db :=
  if delta = 0 then db
  else
    appendRow db "inventory_events"
      [("product_id", Value.int product_id),
       ("delta", Value.int delta),
       ("event_title", Value.text (orString title "Inventory change")),
       ("event_date", Value.text (orString event_date now))]

/-- DatabaseManager.adjust_product_amount: clamp the adjusted amount at zero
with max, write it back, and log the realised delta. -/
def adjust_product_amount (now : String) (db : Db) (product_id delta : Int) : Db × Response :=
  match findRowWhere db "products" "id" (Value.int product_id) with
  | none => (db, error_response "Product not found")
  | some current_product =>
    let current_amount := amount_or_zero (current_product.lookup "amount")
    let new_amount := max 0 (current_amount + delta)
    let db1 := updateRowsWhere db "products" "id" (Value.int product_id)
      (fun r => setCol r "amount" (Value.int new_amount))
    let db2 := log_inventory_event now db1 product_id (new_amount - current_amount)
      (some "Manual adjustment") none
    (db2, success_response "Product amount updated successfully")

/-- DatabaseManager.update_product_amount: clamp the requested amount at zero
with max, write it back, and log the realised delta. -/
def update_product_amount (now : String) (db : Db) (product_id new_amount : Int) : Db × Response :=
  match findRowWhere db "products" "id" (Value.int product_id) with
  | none => (db, error_response "Product not found")
  | some existing_product =>
    let amount := max 0 new_amount
    let current_amount := amount_or_zero (existing_product.lookup "amount")
    let db1 := updateRowsWhere db "products" "id" (Value.int product_id)
      (fun r => setCol r "amount" (Value.int amount))
    let db2 := log_inventory_event now db1 product_id (amount - current_amount)
      (some "Manual Inventory Adjustment") none
    (db2, success_response "Product amount updated successfully")

/-- One entry of the events argument of DatabaseManager.add_inventory_events. -/
structure EventEntry where
  product_id : Option Int
  delta : Int
  event_title : Option String
  event_date : Option String
deriving DecidableEq

/-- The loop body of DatabaseManager.add_inventory_events: entries with a
falsy product id or a zero delta are skipped; a missing product or a
negative delta that would take the amount below zero raises, aborting the
whole batch. -/
def add_inventory_events_loop (insertTitle : Option String) (batch_date : Option String)
    (now : String) : Db → List EventEntry → Except String Db
| db, [] => Except.ok db
| db, entry :: rest =>
  let product_id := entry.product_id.getD 0
  let delta := entry.delta
  if product_id = 0 ∨ delta = 0 then
    add_inventory_events_loop insertTitle batch_date now db rest
  else
    match findRowWhere db "products" "id" (Value.int product_id) with
    | none => Except.error "Product not found"
    | some current_row =>
      let current_amount := amount_or_zero (current_row.lookup "amount")
      if delta < 0 ∧ current_amount + delta < 0 then
        Except.error "Cannot remove more than in stock"
      else
        let new_amount := current_amount + delta
        let db1 := updateRowsWhere db "products" "id" (Value.int product_id)
          (fun r => setCol r "amount" (Value.int new_amount))
        let db2 := log_inventory_event now db1 product_id delta
          (some (orString insertTitle (orString entry.event_title "Inventory event")))
          (match batch_date with
           | some s => some s
           | none => entry.event_date)
        add_inventory_events_loop insertTitle batch_date now db2 rest

/-- DatabaseManager.add_inventory_events: process the batch inside one
transaction; on any raised error the transaction rolls back, leaving the
database unchanged. -/
def add_inventory_events (now : String) (db : Db) (events : List EventEntry)
    (title : Option String) (event_date : Option String) : Db × Response :=
  match add_inventory_events_loop title event_date now db events with
  | Except.ok db2 => (db2, success_response "Events added")
  | Except.error e => (db, error_response e)

/-- DatabaseManager.delete_ingredient: check existence first; when absent,
return an error without touching anything, otherwise delete the relation
rows and the ingredient row. -/
def delete_ingredient (db : Db) (ingredient_id : Int) : Db × Response :=
  match findRowWhere db "ingredients" "id" (Value.int ingredient_id) with
  | none => (db, error_response "Ingredient not found")
  | some ingredient =>
    let ingredient_name :=
      match ingredient.lookup "name" with
      | some (Value.text s) => s
      | _ => ""
    let db1 := deleteRowsWhere db "product_ingredients" "ingredient_id" (Value.int ingredient_id)
    let db2 := deleteRowsWhere db1 "ingredients" "id" (Value.int ingredient_id)
    (db2, success_response ("Ingredient " ++ ingredient_name ++ " deleted successfully"))

/-- DatabaseManager.delete_product: check existence first; when absent,
return an error without touching anything, otherwise delete the relation
rows and the product row. -/
def delete_product (db : Db) (product_id : Int) : Db × Response :=
  match findRowWhere db "products" "id" (Value.int product_id) with
  | none => (db, error_response "Product not found")
  | some product =>
    let product_name :=
      match product.lookup "product_name" with
      | some (Value.text s) => s
      | _ => ""
    let db1 := deleteRowsWhere db "product_ingredients" "product_id" (Value.int product_id)
    let db2 := deleteRowsWhere db1 "products" "id" (Value.int product_id)
    (db2, success_response ("Product " ++ product_name ++ " deleted successfully"))

/-! ## Properties about the model -/

/-- Every row of the products table has a non-negative stored amount. -/
def amountsNonneg (db : Db) : Prop :=
  ∀ r ∈ tableRows db "products", 0 ≤ amount_or_zero (r.lookup "amount")

instance (db : Db) : Decidable (amountsNonneg db) := by
  unfold amountsNonneg; infer_instance

/-- The live column-name set of a table equals an expected column list's
name set. -/
def colNamesMatch (tb : Table) (expected_columns : List (String × String)) : Prop :=
  ∀ c, c ∈ tb.cols.map Prod.fst ↔ c ∈ expected_columns.map Prod.fst

instance (tb : Table) (expected_columns : List (String × String)) :
    Decidable (colNamesMatch tb expected_columns) := by
  unfold colNamesMatch
  exact decidable_of_iff
    (∀ c ∈ tb.cols.map Prod.fst ++ expected_columns.map Prod.fst,
      (c ∈ tb.cols.map Prod.fst ↔ c ∈ expected_columns.map Prod.fst))
    (by
      constructor
      · intro h c
        constructor
        · intro hc; exact (h c (List.mem_append_left _ hc)).mp hc
        · intro hc; exact (h c (List.mem_append_right _ hc)).mpr hc
      · intro h c _; exact h c)

/-! ## Concrete instances used to exercise the model -/

/-- An insert predicate under which every transferred row is accepted. -/
def acceptAll : String → Row → Bool := fun _ _ => true

/-- An insert predicate under which the row with id 2 is rejected by the
target table (a type-incompatible legacy value), making the bulk copy fail. -/
def rejectId2 : String → Row → Bool :=
  fun _ r => !(r.lookup "id" == some (Value.int 2))

/-- The live shape of product_ingredients written by an older schema, before
the cost_per_unit column existed. -/
def piOldColumns : List (String × String) :=
  [("id", "INTEGER PRIMARY KEY AUTOINCREMENT"),
   ("product_id", "INTEGER NOT NULL"),
   ("ingredient_id", "INTEGER NOT NULL"),
   ("quantity_used", "REAL NOT NULL")]

/-- The expected columns of product_ingredients in the current descriptor. -/
def piExpectedColumns : List (String × String) :=
  [("id", "INTEGER PRIMARY KEY AUTOINCREMENT"),
   ("product_id", "INTEGER NOT NULL"),
   ("ingredient_id", "INTEGER NOT NULL"),
   ("quantity_used", "REAL NOT NULL"),
   ("cost_per_unit", "REAL DEFAULT 0.0")]

/-- A database holding the legacy product_ingredients table as an older run
created it, so it still carries the declared relational constraints. -/
def piDb : Db :=
  { tables := [("product_ingredients",
      { cols := piOldColumns,
        constraints := tableConstraints "product_ingredients",
        rows := [] })],
    indexes := [] }

/-- An empty database: no tables, no indexes. -/
def emptyDb : Db := { tables := [], indexes := [] }

/-- A legacy table with an id column and a legacy column, holding two rows. -/
def wOldTable : Table :=
  { cols := [("id", "INTEGER"), ("legacy", "TEXT")], constraints := [],
    rows := [[("id", Value.int 1), ("legacy", Value.text "a")],
             [("id", Value.int 2), ("legacy", Value.text "b")]] }

/-- A database holding only the legacy table wOldTable under the name t. -/
def wOldDb : Db := { tables := [("t", wOldTable)], indexes := [] }

/-- A new expected column list for the table t: legacy is dropped and fresh
is added, while id is kept. -/
def wNewColumns : List (String × String) := [("id", "INTEGER"), ("fresh", "TEXT")]

/-- A one-column table whose declared type will change in the descriptor. -/
def wTypedTable : Table :=
  { cols := [("id", "INTEGER")], constraints := [], rows := [[("id", Value.int 1)]] }

/-- A database holding wTypedTable under the name t. -/
def wTypedDb : Db := { tables := [("t", wTypedTable)], indexes := [] }

/-- The same column name as in wTypedTable with a different declared type. -/
def wChangedColumns : List (String × String) := [("id", "TEXT")]

/-- A products table with one row whose amount is 5. -/
def wProductsTable : Table :=
  { cols := [("id", "INTEGER PRIMARY KEY AUTOINCREMENT"), ("amount", "INTEGER DEFAULT 0")],
    constraints := [],
    rows := [[("id", Value.int 1), ("amount", Value.int 5)]] }

/-- A database holding only the products table wProductsTable. -/
def wCrudDb : Db := { tables := [("products", wProductsTable)], indexes := [] }

/-- A batch with a single removal event of three units for product 1. -/
def wEvents : List EventEntry :=
  [{ product_id := some 1, delta := -3, event_title := none, event_date := none }]

/-! ## Association-list lemmas -/

theorem lookup_filter_ne {β : Type} (l : List (String × β)) (n m : String) (h : m ≠ n) :
    (l.filter (fun p => p.1 != n)).lookup m = l.lookup m := by
  induction l with
  | nil => rfl
  | cons p t ih =>
    obtain ⟨k, b⟩ := p
    by_cases hk : k = n
    · subst hk
      have hm : (m == k) = false := beq_false_of_ne h
      simp [List.filter_cons, List.lookup, hm]
      exact ih
    · have hkeep : ((k, b).1 != n) = true := by simp [bne, hk]
      by_cases hmk : m = k
      · subst hmk
        simp [List.filter_cons, hkeep, List.lookup]
      · have hm : (m == k) = false := beq_false_of_ne hmk
        simp [List.filter_cons, hkeep, List.lookup, hm]
        exact ih

theorem lookup_filter_self {β : Type} (l : List (String × β)) (n : String) :
    (l.filter (fun p => p.1 != n)).lookup n = none := by
  rw [List.lookup_eq_none_iff]
  intro p hp
  have hmem := List.mem_filter.mp hp
  have hne : p.1 ≠ n := by simpa using hmem.2
  simpa using fun h => hne h.symm

theorem lookup_append {β : Type} (l1 l2 : List (String × β)) (m : String) :
    (l1 ++ l2).lookup m =
      match l1.lookup m with
      | some b => some b
      | none => l2.lookup m := by
  induction l1 with
  | nil => rfl
  | cons p t ih =>
    obtain ⟨k, b⟩ := p
    by_cases hmk : m = k
    · subst hmk
      simp [List.lookup]
    · have hm : (m == k) = false := beq_false_of_ne hmk
      simp [List.lookup, hm]
      exact ih

theorem lookup_none_keys {β : Type} (l : List (String × β)) (m : String) :
    l.lookup m = none ↔ ∀ p ∈ l, p.1 ≠ m := by
  rw [List.lookup_eq_none_iff]
  constructor
  · intro h p hp
    have := h p hp
    simp at this
    exact fun hc => this hc.symm
  · intro h p hp
    have := h p hp
    simpa using fun hc => this hc.symm

/-! ## Lemmas about the elementary database operations -/

theorem lookupTable_setTable_self (db : Db) (n : String) (t : Table) :
    lookupTable (setTable db n t) n = some t := by
  unfold lookupTable setTable
  rw [lookup_append, lookup_filter_self]
  simp [List.lookup]

theorem lookupTable_setTable_ne (db : Db) (n m : String) (t : Table) (h : m ≠ n) :
    lookupTable (setTable db n t) m = lookupTable db m := by
  unfold lookupTable setTable
  rw [lookup_append, lookup_filter_ne _ _ _ h]
  cases hm : db.tables.lookup m with
  | some b => rfl
  | none =>
    have : (m == n) = false := beq_false_of_ne h
    simp [List.lookup, this]

theorem lookupTable_dropTable_self (db : Db) (n : String) :
    lookupTable (dropTable db n) n = none := by
  unfold lookupTable dropTable
  exact lookup_filter_self _ _

theorem lookupTable_dropTable_ne (db : Db) (n m : String) (h : m ≠ n) :
    lookupTable (dropTable db n) m = lookupTable db m := by
  unfold lookupTable dropTable
  exact lookup_filter_ne _ _ _ h

theorem dropTable_eq_self (db : Db) (n : String) (h : lookupTable db n = none) :
    dropTable db n = db := by
  unfold dropTable
  have hall := (lookup_none_keys db.tables n).mp h
  have : db.tables.filter (fun p => p.1 != n) = db.tables := by
    apply List.filter_eq_self.mpr
    intro p hp
    simp [bne]
    exact hall p hp
  rw [this]

theorem modifyTable_none (db : Db) (n : String) (f : Table → Table)
    (h : lookupTable db n = none) : modifyTable db n f = db := by
  unfold modifyTable
  rw [h]

theorem lookupTable_modifyTable_self (db : Db) (n : String) (f : Table → Table)
    (t : Table) (h : lookupTable db n = some t) :
    lookupTable (modifyTable db n f) n = some (f t) := by
  unfold modifyTable
  rw [h]
  exact lookupTable_setTable_self _ _ _

theorem lookupTable_modifyTable_ne (db : Db) (n m : String) (f : Table → Table) (h : m ≠ n) :
    lookupTable (modifyTable db n f) m = lookupTable db m := by
  unfold modifyTable
  cases hl : lookupTable db n with
  | none => rfl
  | some t => exact lookupTable_setTable_ne _ _ _ _ h

theorem lookupTable_renameTable_ne (db : Db) (oldName newName m : String)
    (h1 : m ≠ oldName) (h2 : m ≠ newName) :
    lookupTable (renameTable db oldName newName) m = lookupTable db m := by
  unfold renameTable
  cases hl : lookupTable db oldName with
  | none => rfl
  | some t =>
    rw [lookupTable_setTable_ne _ _ _ _ h2, lookupTable_dropTable_ne _ _ _ h1]

theorem lookupTable_renameTable_new (db : Db) (oldName newName : String) (t : Table)
    (h : lookupTable db oldName = some t) :
    lookupTable (renameTable db oldName newName) newName = some t := by
  unfold renameTable
  rw [h]
  exact lookupTable_setTable_self _ _ _

theorem lookupTable_renameTable_old (db : Db) (oldName newName : String) (t : Table)
    (h : lookupTable db oldName = some t) (hne : oldName ≠ newName) :
    lookupTable (renameTable db oldName newName) oldName = none := by
  unfold renameTable
  rw [h, lookupTable_setTable_ne _ _ _ _ hne]
  exact lookupTable_dropTable_self _ _

theorem temp_name_ne (s : String) : s ++ "_new" ≠ s := by
  intro h
  have hlen := congrArg String.length h
  rw [String.length_append] at hlen
  have h4 : "_new".length = 4 := rfl
  rw [h4] at hlen
  omega

/-! ## Lemmas about the data-copy phase -/

theorem lookupTable_appendRows_ne (rs : List Row) (db : Db) (n t : String) (h : t ≠ n) :
    lookupTable (appendRows db n rs) t = lookupTable db t := by
  induction rs generalizing db with
  | nil => rfl
  | cons r rest ih =>
    show lookupTable (appendRows (appendRow db n r) n rest) t = _
    rw [ih]
    exact lookupTable_modifyTable_ne _ _ _ _ h

theorem lookupTable_appendRows_self (rs : List Row) (db : Db) (n : String) (tb : Table)
    (h : lookupTable db n = some tb) :
    lookupTable (appendRows db n rs) n = some { tb with rows := tb.rows ++ rs } := by
  induction rs generalizing db tb with
  | nil => simpa using h
  | cons r rest ih =>
    show lookupTable (appendRows (appendRow db n r) n rest) n = _
    have h1 : lookupTable (appendRow db n r) n = some { tb with rows := tb.rows ++ [r] } :=
      lookupTable_modifyTable_self _ _ _ _ h
    rw [ih _ _ h1]
    simp

theorem lookupTable_copyFold_ne (q : Row → Bool) (rs : List Row) (db : Db) (n t : String)
    (h : t ≠ n) :
    lookupTable (rs.foldl (fun d row => if q row then appendRow d n row else d) db) t =
      lookupTable db t := by
  induction rs generalizing db with
  | nil => rfl
  | cons r rest ih =>
    show lookupTable (rest.foldl _ (if q r then appendRow db n r else db)) t = _
    rw [ih]
    by_cases hq : q r
    · simp [hq, lookupTable_modifyTable_ne _ _ _ _ h, appendRow]
    · simp [hq]

theorem lookupTable_copyFold_self (q : Row → Bool) (rs : List Row) (db : Db) (n : String)
    (tb : Table) (h : lookupTable db n = some tb) :
    lookupTable (rs.foldl (fun d row => if q row then appendRow d n row else d) db) n =
      some { tb with rows := tb.rows ++ rs.filter q } := by
  induction rs generalizing db tb with
  | nil => simpa using h
  | cons r rest ih =>
    show lookupTable (rest.foldl _ (if q r then appendRow db n r else db)) n = _
    by_cases hq : q r
    · have h1 : lookupTable (appendRow db n r) n = some { tb with rows := tb.rows ++ [r] } :=
        lookupTable_modifyTable_self _ _ _ _ h
      rw [if_pos hq, ih _ _ h1]
      simp [List.filter_cons, hq]
    · rw [if_neg hq, ih _ _ h]
      simp [List.filter_cons, hq]

theorem lookupTable_copy_data_safe_ne (insertOk : String → Row → Bool) (db : Db)
    (old_table new_table t : String) (common_columns : List String) (h : t ≠ new_table) :
    lookupTable (copy_data_safe insertOk db old_table new_table common_columns) t =
      lookupTable db t := by
  unfold copy_data_safe
  exact lookupTable_copyFold_ne _ _ _ _ _ h

theorem lookupTable_copy_data_safe_self (insertOk : String → Row → Bool) (db : Db)
    (old_table new_table : String) (common_columns : List String) (tb : Table)
    (h : lookupTable db new_table = some tb) :
    lookupTable (copy_data_safe insertOk db old_table new_table common_columns) new_table =
      some { tb with rows := (tb.rows ++
        ((tableRows db old_table).map (projectRow common_columns)).filter
          (fun r => insertOk new_table r)) } := by
  unfold copy_data_safe
  exact lookupTable_copyFold_self _ _ _ _ _ h

theorem copyCommonStep_frame (insertOk : String → Row → Bool) (db : Db) (table_name t : String)
    (expected_columns current_columns : List (String × String))
    (h : t ≠ table_name ++ "_new") :
    lookupTable (copyCommonStep insertOk db table_name expected_columns current_columns) t =
      lookupTable db t := by
  unfold copyCommonStep
  by_cases hc : (commonColumns expected_columns current_columns).isEmpty
  · simp [hc]
  · simp only [hc, if_false, Bool.false_eq_true]
    split
    · exact lookupTable_appendRows_ne _ _ _ _ h
    · exact lookupTable_copy_data_safe_ne _ _ _ _ _ _ h

/-- The rows transferred by the copy phase: nothing when there is no common
column, otherwise the projected source rows filtered by acceptance (which
is all of them when the bulk statement succeeds). -/
def copiedRows (insertOk : String → Row → Bool) (db : Db) (table_name : String)
    (expected_columns current_columns : List (String × String)) : List Row :=
  let common := commonColumns expected_columns current_columns
  if common.isEmpty then []
  else ((tableRows db table_name).map (projectRow common)).filter
    (fun r => insertOk (table_name ++ "_new") r)

theorem copyCommonStep_self (insertOk : String → Row → Bool) (db : Db) (table_name : String)
    (expected_columns current_columns : List (String × String)) (tb : Table)
    (h : lookupTable db (table_name ++ "_new") = some tb) :
    lookupTable (copyCommonStep insertOk db table_name expected_columns current_columns)
        (table_name ++ "_new") =
      some { tb with rows := (tb.rows ++
        copiedRows insertOk db table_name expected_columns current_columns) } := by
  unfold copyCommonStep copiedRows
  by_cases hc : (commonColumns expected_columns current_columns).isEmpty
  · simp [hc, h]
  · simp only [hc, if_false, Bool.false_eq_true]
    split
    · rename_i hall
      rw [lookupTable_appendRows_self _ _ _ _ h]
      have hfilter :
          (((tableRows db table_name).map
            (projectRow (commonColumns expected_columns current_columns))).filter
              (fun r => insertOk (table_name ++ "_new") r)) =
          ((tableRows db table_name).map
            (projectRow (commonColumns expected_columns current_columns))) :=
        List.filter_eq_self.mpr (by
          intro r hr
          exact List.all_eq_true.mp hall r hr)
      rw [hfilter]
    · exact lookupTable_copy_data_safe_self _ _ _ _ _ _ h

/-! ## Lemmas about recreate_table -/

theorem recreate_table_lookup_self (insertOk : String → Row → Bool) (db : Db)
    (table_name : String) (expected_columns current_columns : List (String × String)) :
    lookupTable (recreate_table insertOk db table_name expected_columns current_columns)
        table_name =
      some { cols := expected_columns,
             constraints := tableConstraints (table_name ++ "_new"),
             rows := copiedRows insertOk db table_name expected_columns current_columns } := by
  have hne : table_name ≠ table_name ++ "_new" := (temp_name_ne table_name).symm
  have h1 : lookupTable (create_table db (table_name ++ "_new") expected_columns)
      (table_name ++ "_new") =
      some { cols := expected_columns, constraints := tableConstraints (table_name ++ "_new"),
             rows := [] } :=
    lookupTable_setTable_self _ _ _
  have hrows : tableRows (create_table db (table_name ++ "_new") expected_columns) table_name =
      tableRows db table_name := by
    unfold tableRows
    rw [show lookupTable (create_table db (table_name ++ "_new") expected_columns) table_name =
        lookupTable db table_name from lookupTable_setTable_ne _ _ _ _ hne]
  have h2 := copyCommonStep_self insertOk
    (create_table db (table_name ++ "_new") expected_columns) table_name
    expected_columns current_columns _ h1
  have hcopied : copiedRows insertOk (create_table db (table_name ++ "_new") expected_columns)
      table_name expected_columns current_columns =
      copiedRows insertOk db table_name expected_columns current_columns := by
    unfold copiedRows
    rw [hrows]
  rw [hcopied] at h2
  simp only [List.nil_append] at h2
  have h3 : lookupTable (dropTable
      (copyCommonStep insertOk (create_table db (table_name ++ "_new") expected_columns)
        table_name expected_columns current_columns) table_name) (table_name ++ "_new") =
      some { cols := expected_columns, constraints := tableConstraints (table_name ++ "_new"),
             rows := copiedRows insertOk db table_name expected_columns current_columns } := by
    rw [lookupTable_dropTable_ne _ _ _ (temp_name_ne table_name), h2]
  show lookupTable (renameTable (dropTable
      (copyCommonStep insertOk (create_table db (table_name ++ "_new") expected_columns)
        table_name expected_columns current_columns) table_name)
      (table_name ++ "_new") table_name) table_name = _
  rw [lookupTable_renameTable_new _ _ _ _ h3]

theorem recreate_table_frame (insertOk : String → Row → Bool) (db : Db)
    (table_name t : String) (expected_columns current_columns : List (String × String))
    (h1 : t ≠ table_name) (h2 : t ≠ table_name ++ "_new") :
    lookupTable (recreate_table insertOk db table_name expected_columns current_columns) t =
      lookupTable db t := by
  show lookupTable (renameTable (dropTable
      (copyCommonStep insertOk (create_table db (table_name ++ "_new") expected_columns)
        table_name expected_columns current_columns) table_name)
      (table_name ++ "_new") table_name) t = _
  rw [lookupTable_renameTable_ne _ _ _ _ h2 h1,
      lookupTable_dropTable_ne _ _ _ h1,
      copyCommonStep_frame _ _ _ _ _ _ h2]
  exact lookupTable_setTable_ne _ _ _ _ h2

theorem recreate_table_temp_gone (insertOk : String → Row → Bool) (db : Db)
    (table_name : String) (expected_columns current_columns : List (String × String)) :
    lookupTable (recreate_table insertOk db table_name expected_columns current_columns)
      (table_name ++ "_new") = none := by
  have h1 : lookupTable (create_table db (table_name ++ "_new") expected_columns)
      (table_name ++ "_new") =
      some { cols := expected_columns, constraints := tableConstraints (table_name ++ "_new"),
             rows := [] } :=
    lookupTable_setTable_self _ _ _
  have h2 := copyCommonStep_self insertOk
    (create_table db (table_name ++ "_new") expected_columns) table_name
    expected_columns current_columns _ h1
  have h3 := lookupTable_dropTable_ne
    (copyCommonStep insertOk (create_table db (table_name ++ "_new") expected_columns)
      table_name expected_columns current_columns) table_name (table_name ++ "_new")
    (temp_name_ne table_name)
  rw [h2] at h3
  show lookupTable (renameTable (dropTable
      (copyCommonStep insertOk (create_table db (table_name ++ "_new") expected_columns)
        table_name expected_columns current_columns) table_name)
      (table_name ++ "_new") table_name) (table_name ++ "_new") = none
  exact lookupTable_renameTable_old _ _ _ _ h3 (temp_name_ne table_name)

/-! ## Lemmas about migrate_table_schema -/

theorem not_bang_contains_mem (l : List String) (c : String)
    (h : ¬((!l.contains c) = true)) : c ∈ l := by
  cases hb : l.contains c with
  | true => exact List.elem_iff.mp hb
  | false => exact absurd (by rw [hb]; rfl) h

theorem mem_imp_not_bang_contains (l : List String) (c : String) (h : c ∈ l) :
    ¬((!l.contains c) = true) := by
  have hb : l.contains c = true := List.elem_iff.mpr h
  rw [hb]
  simp

theorem noop_condition_of_match (t : Table) (cols : List (String × String))
    (h : colNamesMatch t cols) :
    (((cols.map Prod.fst).filter
        (fun c => !((t.cols.map Prod.fst).contains c))).isEmpty &&
     ((t.cols.map Prod.fst).filter
        (fun c => !((cols.map Prod.fst).contains c))).isEmpty) = true := by
  rw [Bool.and_eq_true]
  constructor
  · rw [List.isEmpty_iff, List.filter_eq_nil_iff]
    intro c hc
    exact mem_imp_not_bang_contains _ _ ((h c).mpr hc)
  · rw [List.isEmpty_iff, List.filter_eq_nil_iff]
    intro c hc
    exact mem_imp_not_bang_contains _ _ ((h c).mp hc)

theorem match_of_noop_condition (t : Table) (cols : List (String × String))
    (h : (((cols.map Prod.fst).filter
        (fun c => !((t.cols.map Prod.fst).contains c))).isEmpty &&
     ((t.cols.map Prod.fst).filter
        (fun c => !((cols.map Prod.fst).contains c))).isEmpty) = true) :
    colNamesMatch t cols := by
  rw [Bool.and_eq_true, List.isEmpty_iff, List.filter_eq_nil_iff,
      List.isEmpty_iff, List.filter_eq_nil_iff] at h
  intro c
  constructor
  · intro hc
    exact not_bang_contains_mem _ _ (h.2 c hc)
  · intro hc
    exact not_bang_contains_mem _ _ (h.1 c hc)

theorem migrate_noop (insertOk : String → Row → Bool) (db : Db) (table_name : String)
    (cols : List (String × String)) (t : Table)
    (hl : lookupTable db table_name = some t) (h : colNamesMatch t cols) :
    migrate_table_schema insertOk db table_name cols = (db, MigrationOutcome.noOpMatched) := by
  simp only [migrate_table_schema, hl]
  rw [if_pos (noop_condition_of_match t cols h)]

theorem migrate_frame (insertOk : String → Row → Bool) (db : Db) (n t : String)
    (cols : List (String × String)) (h1 : t ≠ n) (h2 : t ≠ n ++ "_new") :
    lookupTable (migrate_table_schema insertOk db n cols).1 t = lookupTable db t := by
  cases hl : lookupTable db n with
  | none =>
    simp only [migrate_table_schema, hl]
    exact lookupTable_setTable_ne _ _ _ _ h1
  | some tb =>
    simp only [migrate_table_schema, hl]
    split
    · rfl
    · exact recreate_table_frame _ _ _ _ _ _ h1 h2

theorem migrate_establishes (insertOk : String → Row → Bool) (db : Db) (n : String)
    (cols : List (String × String)) :
    ∃ tb, lookupTable (migrate_table_schema insertOk db n cols).1 n = some tb ∧
      colNamesMatch tb cols := by
  cases hl : lookupTable db n with
  | none =>
    simp only [migrate_table_schema, hl]
    exact ⟨_, lookupTable_setTable_self _ _ _, fun c => Iff.rfl⟩
  | some tb =>
    simp only [migrate_table_schema, hl]
    split
    · rename_i hcond
      exact ⟨tb, hl, match_of_noop_condition tb cols hcond⟩
    · exact ⟨_, recreate_table_lookup_self _ _ _ _ _, fun c => Iff.rfl⟩

/-! ## Lemmas about create_indexes -/

theorem indexStep_tables (d : Db) (i : String) : (indexStep d i).tables = d.tables := by
  unfold indexStep
  split <;> rfl

theorem foldl_indexStep_tables (l : List String) (d : Db) :
    (l.foldl indexStep d).tables = d.tables := by
  induction l generalizing d with
  | nil => rfl
  | cons i rest ih =>
    show (rest.foldl indexStep (indexStep d i)).tables = _
    rw [ih, indexStep_tables]

theorem lookupTable_create_indexes (db : Db) (n : String) :
    lookupTable (create_indexes db) n = lookupTable db n := by
  unfold lookupTable create_indexes
  rw [foldl_indexStep_tables]

theorem foldl_indexStep_mem_mono (l : List String) (d : Db) (j : String) (h : j ∈ d.indexes) :
    j ∈ (l.foldl indexStep d).indexes := by
  induction l generalizing d with
  | nil => exact h
  | cons i rest ih =>
    show j ∈ (rest.foldl indexStep (indexStep d i)).indexes
    apply ih
    unfold indexStep
    split
    · exact h
    · exact List.mem_append_left _ h

theorem foldl_indexStep_mem (l : List String) (d : Db) (j : String) (h : j ∈ l) :
    j ∈ (l.foldl indexStep d).indexes := by
  induction l generalizing d with
  | nil => cases h
  | cons i rest ih =>
    show j ∈ (rest.foldl indexStep (indexStep d i)).indexes
    rcases List.mem_cons.mp h with rfl | h2
    · apply foldl_indexStep_mem_mono
      unfold indexStep
      split
      · rename_i hc
        exact List.elem_iff.mp hc
      · exact List.mem_append_right _ (List.mem_singleton.mpr rfl)
    · exact ih _ h2

theorem create_indexes_mem (db : Db) (j : String) (h : j ∈ expectedIndexes) :
    j ∈ (create_indexes db).indexes :=
  foldl_indexStep_mem _ _ _ h

theorem create_indexes_eq_self (db : Db) (h : ∀ i ∈ expectedIndexes, i ∈ db.indexes) :
    create_indexes db = db := by
  unfold create_indexes
  have hgen : ∀ l : List String, (∀ i ∈ l, i ∈ db.indexes) → l.foldl indexStep db = db := by
    intro l
    induction l with
    | nil => intro _; rfl
    | cons i rest ih =>
      intro hl
      show rest.foldl indexStep (indexStep db i) = db
      have hstep : indexStep db i = db := by
        unfold indexStep
        rw [if_pos (List.elem_iff.mpr (hl i (List.mem_cons_self _ _)))]
      rw [hstep]
      exact ih (fun j hj => hl j (List.mem_cons_of_mem _ hj))
  exact hgen expectedIndexes h

/-! ## Lemmas about the init_database fold -/

theorem migStep_fold_fst (insertOk : String → Row → Bool)
    (schema : List (String × List (String × String))) (d : Db) (os : List MigrationOutcome) :
    (schema.foldl (migStep insertOk) (d, os)).1 = migrateFold insertOk schema d := by
  induction schema generalizing d os with
  | nil => rfl
  | cons p rest ih =>
    show (rest.foldl (migStep insertOk) (migStep insertOk (d, os) p)).1 = _
    exact ih _ _

theorem migrateFold_frame (insertOk : String → Row → Bool)
    (schema : List (String × List (String × String))) (db : Db) (t : String)
    (h : ∀ p ∈ schema, t ≠ p.1 ∧ t ≠ p.1 ++ "_new") :
    lookupTable (migrateFold insertOk schema db) t = lookupTable db t := by
  induction schema generalizing db with
  | nil => rfl
  | cons p rest ih =>
    show lookupTable (migrateFold insertOk rest (migrate_table_schema insertOk db p.1 p.2).1) t = _
    rw [ih _ (fun q hq => h q (List.mem_cons_of_mem _ hq))]
    exact migrate_frame _ _ _ _ _ (h p (List.mem_cons_self _ _)).1 (h p (List.mem_cons_self _ _)).2

theorem migrateFold_establishes (insertOk : String → Row → Bool)
    (schema : List (String × List (String × String))) (db : Db)
    (hnd : (schema.map Prod.fst).Nodup)
    (hnew : ∀ n1 ∈ schema.map Prod.fst, ∀ n2 ∈ schema.map Prod.fst, n1 ++ "_new" ≠ n2) :
    ∀ p ∈ schema, ∃ tb, lookupTable (migrateFold insertOk schema db) p.1 = some tb ∧
      colNamesMatch tb p.2 := by
  induction schema generalizing db with
  | nil => intro p hp; cases hp
  | cons q rest ih =>
    intro p hp
    have hndq : q.1 ∉ rest.map Prod.fst ∧ (rest.map Prod.fst).Nodup := by
      rw [List.map_cons, List.nodup_cons] at hnd
      exact hnd
    rcases List.mem_cons.mp hp with rfl | hp2
    · obtain ⟨tb, htb, hm⟩ := migrate_establishes insertOk db p.1 p.2
      refine ⟨tb, ?_, hm⟩
      show lookupTable (migrateFold insertOk rest (migrate_table_schema insertOk db p.1 p.2).1)
        p.1 = some tb
      rw [migrateFold_frame insertOk rest _ p.1 ?_]
      · exact htb
      · intro r hr
        constructor
        · intro heq
          exact hndq.1 (heq ▸ List.mem_map_of_mem Prod.fst hr)
        · intro heq
          exact hnew r.1 (by simp [List.mem_map_of_mem Prod.fst hr])
            p.1 (by simp) heq.symm
    · exact ih _ hndq.2
        (fun n1 h1 n2 h2 => hnew n1 (by simp [h1]) n2 (by simp [h2])) p hp2

theorem migStep_fold_noop (insertOk : String → Row → Bool)
    (schema : List (String × List (String × String))) (db : Db) (os : List MigrationOutcome)
    (h : ∀ p ∈ schema, ∃ tb, lookupTable db p.1 = some tb ∧ colNamesMatch tb p.2) :
    schema.foldl (migStep insertOk) (db, os) =
      (db, os ++ schema.map (fun _ => MigrationOutcome.noOpMatched)) := by
  induction schema generalizing os with
  | nil => simp
  | cons q rest ih =>
    obtain ⟨tb, htb, hm⟩ := h q (List.mem_cons_self _ _)
    have hq : migStep insertOk (db, os) q = (db, os ++ [MigrationOutcome.noOpMatched]) := by
      unfold migStep
      rw [migrate_noop insertOk db q.1 q.2 tb htb hm]
    show rest.foldl (migStep insertOk) (migStep insertOk (db, os) q) = _
    rw [hq, ih (os ++ [MigrationOutcome.noOpMatched])
      (fun p hp => h p (List.mem_cons_of_mem _ hp))]
    simp

/-! ## Lemmas about projectRow -/

theorem projectRow_lookup_not_mem (cs : List String) (r : Row) (c : String) (h : c ∉ cs) :
    (projectRow cs r).lookup c = none := by
  induction cs with
  | nil => rfl
  | cons d rest ih =>
    have hdc : c ≠ d := fun heq => h (heq ▸ List.mem_cons_self _ _)
    have hcr : c ∉ rest := fun hm => h (List.mem_cons_of_mem _ hm)
    show (List.filterMap _ (d :: rest)).lookup c = none
    rw [List.filterMap_cons]
    cases hr : r.lookup d with
    | none => exact ih hcr
    | some v =>
      have hbc : (c == d) = false := beq_false_of_ne hdc
      show List.lookup c ((d, v) ::
        List.filterMap (fun c => Option.map (fun v => (c, v)) (List.lookup c r)) rest) = none
      rw [List.lookup_cons, hbc]
      exact ih hcr

theorem projectRow_lookup (cs : List String) (r : Row) (c : String)
    (hnd : cs.Nodup) (hc : c ∈ cs) :
    (projectRow cs r).lookup c = r.lookup c := by
  induction cs with
  | nil => cases hc
  | cons d rest ih =>
    rw [List.nodup_cons] at hnd
    show (List.filterMap _ (d :: rest)).lookup c = r.lookup c
    rw [List.filterMap_cons]
    rcases List.mem_cons.mp hc with rfl | hc2
    · cases hr : r.lookup c with
      | none => exact projectRow_lookup_not_mem rest r c hnd.1
      | some v =>
        show List.lookup c ((c, v) ::
          List.filterMap (fun c => Option.map (fun v => (c, v)) (List.lookup c r)) rest) = some v
        rw [List.lookup_cons]
        simp
    · have hdc : c ≠ d := fun heq => hnd.1 (heq ▸ hc2)
      cases hr : r.lookup d with
      | none => exact ih hnd.2 hc2
      | some v =>
        have hbc : (c == d) = false := beq_false_of_ne hdc
        show List.lookup c ((d, v) ::
          List.filterMap (fun c => Option.map (fun v => (c, v)) (List.lookup c r)) rest) =
          r.lookup c
        rw [List.lookup_cons, hbc]
        exact ih hnd.2 hc2

theorem commonColumns_nodup (expected_columns current_columns : List (String × String))
    (h : (expected_columns.map Prod.fst).Nodup) :
    (commonColumns expected_columns current_columns).Nodup :=
  h.filter _

/-! ## Lemmas about rows and the CRUD operations -/

theorem lookup_setCol_self (r : Row) (c : String) (v : Value) :
    (setCol r c v).lookup c = some v := by
  unfold setCol
  rw [lookup_append, lookup_filter_self]
  show List.lookup c [(c, v)] = some v
  rw [List.lookup_cons]
  simp

theorem tableRows_modifyTable_ne (db : Db) (n m : String) (f : Table → Table) (h : m ≠ n) :
    tableRows (modifyTable db n f) m = tableRows db m := by
  unfold tableRows
  rw [lookupTable_modifyTable_ne _ _ _ _ h]

theorem tableRows_log_inventory_event (now : String) (db : Db) (pid delta : Int)
    (title event_date : Option String) :
    tableRows (log_inventory_event now db pid delta title event_date) "products" =
      tableRows db "products" := by
  unfold log_inventory_event
  split
  · rfl
  · exact tableRows_modifyTable_ne _ _ _ _ (by decide)

theorem mem_tableRows_updateRowsWhere (db : Db) (n c : String) (v : Value) (f : Row → Row)
    (r2 : Row) (h2 : r2 ∈ tableRows (updateRowsWhere db n c v f) n) :
    ∃ r ∈ tableRows db n, r2 = f r ∨ r2 = r := by
  cases hl : lookupTable db n with
  | none =>
    rw [show updateRowsWhere db n c v f = db from modifyTable_none _ _ _ hl] at h2
    exact ⟨r2, h2, Or.inr rfl⟩
  | some t =>
    have hself := lookupTable_modifyTable_self db n
      (fun t => { t with
        rows := t.rows.map (fun r => if r.lookup c == some v then f r else r) }) t hl
    unfold updateRowsWhere tableRows at h2
    rw [hself] at h2
    obtain ⟨r, hr, hg⟩ := List.mem_map.mp h2
    refine ⟨r, ?_, ?_⟩
    · unfold tableRows
      rw [hl]
      exact hr
    · by_cases hcv : (r.lookup c == some v) = true
      · rw [if_pos hcv] at hg
        exact Or.inl hg.symm
      · rw [if_neg hcv] at hg
        exact Or.inr hg.symm

theorem findRowWhere_mem (db : Db) (n c : String) (v : Value) (r : Row)
    (h : findRowWhere db n c v = some r) : r ∈ tableRows db n := by
  unfold findRowWhere at h
  exact List.mem_of_find?_eq_some h

theorem amountsNonneg_update_log (now : String) (db : Db) (pid new_amount delta2 : Int)
    (title event_date : Option String) (hdb : amountsNonneg db) (hpos : 0 ≤ new_amount) :
    amountsNonneg (log_inventory_event now
      (updateRowsWhere db "products" "id" (Value.int pid)
        (fun r => setCol r "amount" (Value.int new_amount))) pid delta2 title event_date) := by
  unfold amountsNonneg
  intro r2 h2
  rw [tableRows_log_inventory_event] at h2
  obtain ⟨r, hr, hcase⟩ := mem_tableRows_updateRowsWhere _ _ _ _ _ _ h2
  rcases hcase with heq | heq
  · rw [heq, lookup_setCol_self]
    exact hpos
  · rw [heq]
    exact hdb r hr

theorem add_loop_nonneg (insertTitle batch_date : Option String) (now : String)
    (events : List EventEntry) (db : Db) (hdb : amountsNonneg db) (db2 : Db)
    (h : add_inventory_events_loop insertTitle batch_date now db events = Except.ok db2) :
    amountsNonneg db2 := by
  induction events generalizing db with
  | nil =>
    unfold add_inventory_events_loop at h
    cases h
    exact hdb
  | cons e rest ih =>
    unfold add_inventory_events_loop at h
    by_cases hskip : e.product_id.getD 0 = 0 ∨ e.delta = 0
    · rw [if_pos hskip] at h
      exact ih db hdb h
    · rw [if_neg hskip] at h
      cases hf : findRowWhere db "products" "id" (Value.int (e.product_id.getD 0)) with
      | none =>
        simp only [hf] at h
        cases h
      | some current_row =>
        simp only [hf] at h
        by_cases hneg : e.delta < 0 ∧ amount_or_zero (current_row.lookup "amount") + e.delta < 0
        · rw [if_pos hneg] at h
          cases h
        · rw [if_neg hneg] at h
          have hmem : current_row ∈ tableRows db "products" := findRowWhere_mem _ _ _ _ _ hf
          have hcur : 0 ≤ amount_or_zero (current_row.lookup "amount") := hdb _ hmem
          have hpos : 0 ≤ amount_or_zero (current_row.lookup "amount") + e.delta := by
            by_cases hd : e.delta < 0
            · by_contra hlt
              exact hneg ⟨hd, by omega⟩
            · omega
          exact ih _
            (amountsNonneg_update_log now db (e.product_id.getD 0) _ _ _ _ hdb hpos) h

/-! ## Lemmas about init_database -/

set_option maxHeartbeats 1000000 in
theorem init_database_fst (insertOk : String → Row → Bool) (db : Db)
    (schema : List (String × List (String × String))) :
    (init_database insertOk db schema).1 =
      create_indexes (migrateFold insertOk schema (dropTable db "inventory")) := by
  simp only [init_database]
  rw [migStep_fold_fst]

theorem init_database_matches_aux (insertOk : String → Row → Bool) (db : Db)
    (schema : List (String × List (String × String)))
    (hnd : (schema.map Prod.fst).Nodup)
    (hnew : ∀ n1 ∈ schema.map Prod.fst, ∀ n2 ∈ schema.map Prod.fst, n1 ++ "_new" ≠ n2) :
    ∀ p ∈ schema, ∃ tb, lookupTable (init_database insertOk db schema).1 p.1 = some tb ∧
      colNamesMatch tb p.2 := by
  intro p hp
  obtain ⟨tb, htb, hm⟩ :=
    migrateFold_establishes insertOk schema (dropTable db "inventory") hnd hnew p hp
  refine ⟨tb, ?_, hm⟩
  rw [init_database_fst, lookupTable_create_indexes]
  exact htb

theorem init_database_inventory_none (insertOk : String → Row → Bool) (db : Db)
    (schema : List (String × List (String × String)))
    (hinv1 : "inventory" ∉ schema.map Prod.fst)
    (hinv2 : ∀ n ∈ schema.map Prod.fst, n ++ "_new" ≠ "inventory") :
    lookupTable (init_database insertOk db schema).1 "inventory" = none := by
  rw [init_database_fst, lookupTable_create_indexes]
  have hframe := migrateFold_frame insertOk schema (dropTable db "inventory") "inventory" ?_
  · rw [hframe]
    exact lookupTable_dropTable_self _ _
  · intro p hp
    constructor
    · intro heq
      exact hinv1 (heq ▸ List.mem_map_of_mem Prod.fst hp)
    · intro heq
      exact hinv2 p.1 (List.mem_map_of_mem Prod.fst hp) heq.symm

theorem init_database_indexes (insertOk : String → Row → Bool) (db : Db)
    (schema : List (String × List (String × String))) :
    ∀ i ∈ expectedIndexes, i ∈ (init_database insertOk db schema).1.indexes := by
  intro i hi
  rw [init_database_fst]
  exact create_indexes_mem _ _ hi

set_option maxHeartbeats 1000000 in
theorem init_database_idempotent_aux (insertOk : String → Row → Bool) (db : Db)
    (schema : List (String × List (String × String)))
    (hnd : (schema.map Prod.fst).Nodup)
    (hnew : ∀ n1 ∈ schema.map Prod.fst, ∀ n2 ∈ schema.map Prod.fst, n1 ++ "_new" ≠ n2)
    (hinv1 : "inventory" ∉ schema.map Prod.fst)
    (hinv2 : ∀ n ∈ schema.map Prod.fst, n ++ "_new" ≠ "inventory") :
    init_database insertOk (init_database insertOk db schema).1 schema =
      ((init_database insertOk db schema).1,
       schema.map (fun _ => MigrationOutcome.noOpMatched)) := by
  have hmatch := init_database_matches_aux insertOk db schema hnd hnew
  have hinvn := init_database_inventory_none insertOk db schema hinv1 hinv2
  have hidx := init_database_indexes insertOk db schema
  generalize hg : (init_database insertOk db schema).1 = db1 at hmatch hinvn hidx ⊢
  have e1 : dropTable db1 "inventory" = db1 := dropTable_eq_self _ _ hinvn
  simp only [init_database]
  rw [e1, migStep_fold_noop insertOk schema db1 [] hmatch]
  simp only [List.nil_append]
  rw [create_indexes_eq_self db1 hidx]

/-! ## Claim theorems -/

/-- Claim C1: the claim states that after any reconcile, created fresh or
rebuilt, the table carries all declared relational constraints.  On the code
this fails for every rebuild: the sibling is created under the temporary
name table_name plus a _new suffix, and the constraint selection in
_create_table matches on the exact table name, so the sibling (and hence the
renamed final table) carries no constraints at all.  Evaluated at the
concrete failing input: migrating the legacy product_ingredients table (no
cost_per_unit column yet) takes the rebuilt branch and yields a table whose
constraint list is empty, while a fresh create of the same table does carry
the declared foreign keys and the uniqueness constraint, so a duplicate
insert is no longer rejected after the rebuild. -/
theorem C1_rebuilt_table_loses_declared_constraints :
    expected_schema.lookup "product_ingredients" = some piExpectedColumns ∧
    tableConstraints "product_ingredients" ≠ [] ∧
    (migrate_table_schema acceptAll piDb "product_ingredients" piExpectedColumns).2 =
      MigrationOutcome.rebuilt ∧
    (lookupTable (migrate_table_schema acceptAll piDb "product_ingredients"
        piExpectedColumns).1 "product_ingredients").map Table.constraints = some [] ∧
    (lookupTable (create_table emptyDb "product_ingredients" piExpectedColumns)
        "product_ingredients").map Table.constraints =
      some (tableConstraints "product_ingredients") := by
  refine ⟨?_, ?_, ?_, ?_, ?_⟩ <;> decide

/-- Claim C2: after init_database completes, for every table named in the
schema descriptor the live column-name set of that table equals the name set
of its declared column list exactly, whatever the prior on-disk shape of the
table was (absent, matching, or differing). -/
theorem C2_init_database_column_sets_match (insertOk : String → Row → Bool) (db : Db)
    (schema : List (String × List (String × String)))
    (hnd : (schema.map Prod.fst).Nodup)
    (hnew : ∀ n1 ∈ schema.map Prod.fst, ∀ n2 ∈ schema.map Prod.fst, n1 ++ "_new" ≠ n2) :
    ∀ p ∈ schema, ∃ tb, lookupTable (init_database insertOk db schema).1 p.1 = some tb ∧
      colNamesMatch tb p.2 :=
  init_database_matches_aux insertOk db schema hnd hnew

/-- Witness for C2: the real schema descriptor of the application, run
against an empty database, satisfies the hypotheses and the conclusion. -/
theorem C2_init_database_column_sets_match_witness :
    (expected_schema.map Prod.fst).Nodup ∧
    (∀ n1 ∈ expected_schema.map Prod.fst, ∀ n2 ∈ expected_schema.map Prod.fst,
      n1 ++ "_new" ≠ n2) ∧
    (∀ p ∈ expected_schema,
      ∃ tb, lookupTable (init_database acceptAll emptyDb expected_schema).1 p.1 = some tb ∧
        colNamesMatch tb p.2) :=
  ⟨by decide, by decide,
   C2_init_database_column_sets_match acceptAll emptyDb expected_schema
     (by decide) (by decide)⟩

/-- Claim C3: during a rebuild whose bulk copy succeeds, the rebuilt table
holds exactly one row per source row, each the projection of the source row
to the common columns, and for every common column the projected row gives
back exactly the source row's value: the data is copied, not regenerated. -/
theorem C3_rebuild_preserves_common_column_values (insertOk : String → Row → Bool) (db : Db)
    (table_name : String) (expected_columns current_columns : List (String × String))
    (hnd : (expected_columns.map Prod.fst).Nodup)
    (hcommon : (commonColumns expected_columns current_columns).isEmpty = false)
    (hbulk : ∀ r ∈ (tableRows db table_name).map
        (projectRow (commonColumns expected_columns current_columns)),
      insertOk (table_name ++ "_new") r = true) :
    ∃ tb, lookupTable (recreate_table insertOk db table_name expected_columns current_columns)
        table_name = some tb ∧
      tb.rows = (tableRows db table_name).map
        (projectRow (commonColumns expected_columns current_columns)) ∧
      (∀ r ∈ tableRows db table_name,
        ∀ c ∈ commonColumns expected_columns current_columns,
          (projectRow (commonColumns expected_columns current_columns) r).lookup c =
            r.lookup c) := by
  refine ⟨_, recreate_table_lookup_self insertOk db table_name expected_columns
    current_columns, ?_, ?_⟩
  · show copiedRows insertOk db table_name expected_columns current_columns = _
    unfold copiedRows
    rw [if_neg (by rw [hcommon]; exact Bool.false_ne_true)]
    exact List.filter_eq_self.mpr hbulk
  · intro r _ c hc
    exact projectRow_lookup _ _ _ (commonColumns_nodup _ _ hnd) hc

/-- Witness for C3: rebuilding the table t from (id, legacy) to (id, fresh)
with an accepting insert predicate preserves the id values of both rows. -/
theorem C3_rebuild_preserves_common_column_values_witness :
    ((wNewColumns.map Prod.fst).Nodup ∧
     (commonColumns wNewColumns wOldTable.cols).isEmpty = false ∧
     (∀ r ∈ (tableRows wOldDb "t").map
         (projectRow (commonColumns wNewColumns wOldTable.cols)),
       acceptAll ("t" ++ "_new") r = true)) ∧
    (∃ tb, lookupTable (recreate_table acceptAll wOldDb "t" wNewColumns wOldTable.cols)
        "t" = some tb ∧
      tb.rows = (tableRows wOldDb "t").map
        (projectRow (commonColumns wNewColumns wOldTable.cols)) ∧
      (∀ r ∈ tableRows wOldDb "t",
        ∀ c ∈ commonColumns wNewColumns wOldTable.cols,
          (projectRow (commonColumns wNewColumns wOldTable.cols) r).lookup c =
            r.lookup c)) :=
  ⟨⟨by decide, by decide, by decide⟩,
   C3_rebuild_preserves_common_column_values acceptAll wOldDb "t" wNewColumns wOldTable.cols
     (by decide) (by decide) (by decide)⟩

/-- Claim C4: when the bulk copy fails during a rebuild, the migration still
completes: the final table exists under the original name with exactly the
expected columns, the temporary sibling name is gone (original dropped,
sibling renamed), and its rows are exactly the projected source rows that
pass the individual insert, the failing rows being skipped. -/
theorem C4_bulk_copy_failure_falls_back_row_by_row (insertOk : String → Row → Bool) (db : Db)
    (table_name : String) (expected_columns current_columns : List (String × String))
    (hcommon : (commonColumns expected_columns current_columns).isEmpty = false)
    (hfail : ¬ ∀ r ∈ (tableRows db table_name).map
        (projectRow (commonColumns expected_columns current_columns)),
      insertOk (table_name ++ "_new") r = true) :
    ∃ tb, lookupTable (recreate_table insertOk db table_name expected_columns current_columns)
        table_name = some tb ∧
      tb.cols = expected_columns ∧
      tb.rows = ((tableRows db table_name).map
        (projectRow (commonColumns expected_columns current_columns))).filter
          (fun r => insertOk (table_name ++ "_new") r) ∧
      lookupTable (recreate_table insertOk db table_name expected_columns current_columns)
        (table_name ++ "_new") = none := by
  refine ⟨_, recreate_table_lookup_self insertOk db table_name expected_columns
    current_columns, rfl, ?_,
    recreate_table_temp_gone insertOk db table_name expected_columns current_columns⟩
  show copiedRows insertOk db table_name expected_columns current_columns = _
  unfold copiedRows
  rw [if_neg (by rw [hcommon]; exact Bool.false_ne_true)]

/-- Witness for C4: with a predicate rejecting the row with id 2, the bulk
copy fails, the rebuild still completes, and only the row with id 1
survives. -/
theorem C4_bulk_copy_failure_falls_back_row_by_row_witness :
    ((commonColumns wNewColumns wOldTable.cols).isEmpty = false ∧
     ¬ ∀ r ∈ (tableRows wOldDb "t").map
         (projectRow (commonColumns wNewColumns wOldTable.cols)),
       rejectId2 ("t" ++ "_new") r = true) ∧
    (∃ tb, lookupTable (recreate_table rejectId2 wOldDb "t" wNewColumns wOldTable.cols)
        "t" = some tb ∧
      tb.cols = wNewColumns ∧
      tb.rows = ((tableRows wOldDb "t").map
        (projectRow (commonColumns wNewColumns wOldTable.cols))).filter
          (fun r => rejectId2 ("t" ++ "_new") r) ∧
      lookupTable (recreate_table rejectId2 wOldDb "t" wNewColumns wOldTable.cols)
        ("t" ++ "_new") = none) :=
  ⟨⟨by decide, by decide⟩,
   C4_bulk_copy_failure_falls_back_row_by_row rejectId2 wOldDb "t" wNewColumns wOldTable.cols
     (by decide) (by decide)⟩

/-- Claim C5: running synchronization a second time right after a first run
leaves the database exactly as the first run left it and records the
no-migration outcome for every table of the descriptor: no table is rebuilt
and no rows are copied or lost on the second call. -/
theorem C5_second_synchronize_is_noop (insertOk : String → Row → Bool) (db : Db)
    (schema : List (String × List (String × String)))
    (hnd : (schema.map Prod.fst).Nodup)
    (hnew : ∀ n1 ∈ schema.map Prod.fst, ∀ n2 ∈ schema.map Prod.fst, n1 ++ "_new" ≠ n2)
    (hinv1 : "inventory" ∉ schema.map Prod.fst)
    (hinv2 : ∀ n ∈ schema.map Prod.fst, n ++ "_new" ≠ "inventory") :
    (init_database insertOk (init_database insertOk db schema).1 schema).1 =
      (init_database insertOk db schema).1 ∧
    ∀ o ∈ (init_database insertOk (init_database insertOk db schema).1 schema).2,
      o = MigrationOutcome.noOpMatched := by
  have h := init_database_idempotent_aux insertOk db schema hnd hnew hinv1 hinv2
  constructor
  · rw [h]
  · rw [h]
    intro o ho
    obtain ⟨p, _, hp⟩ := List.mem_map.mp ho
    exact hp.symm

/-- Witness for C5: the real schema descriptor run twice from an empty
database satisfies the hypotheses and the conclusion. -/
theorem C5_second_synchronize_is_noop_witness :
    ((expected_schema.map Prod.fst).Nodup ∧
     (∀ n1 ∈ expected_schema.map Prod.fst, ∀ n2 ∈ expected_schema.map Prod.fst,
       n1 ++ "_new" ≠ n2) ∧
     "inventory" ∉ expected_schema.map Prod.fst ∧
     (∀ n ∈ expected_schema.map Prod.fst, n ++ "_new" ≠ "inventory")) ∧
    ((init_database acceptAll (init_database acceptAll emptyDb expected_schema).1
        expected_schema).1 = (init_database acceptAll emptyDb expected_schema).1 ∧
     ∀ o ∈ (init_database acceptAll (init_database acceptAll emptyDb expected_schema).1
        expected_schema).2, o = MigrationOutcome.noOpMatched) :=
  ⟨⟨by decide, by decide, by decide, by decide⟩,
   C5_second_synchronize_is_noop acceptAll emptyDb expected_schema
     (by decide) (by decide) (by decide) (by decide)⟩

/-- Claim C6: when a table's live column-name set equals its declared
column-name set, but the declared type string of some column differs between
the live schema and the declaration, reconcile still takes the no-operation
branch and returns the database untouched: comparison is by column name
only, so the type change is not detected. -/
theorem C6_type_change_not_detected (insertOk : String → Row → Bool) (db : Db)
    (table_name : String) (expected_columns : List (String × String)) (t : Table)
    (hl : lookupTable db table_name = some t)
    (hmatch : colNamesMatch t expected_columns)
    (hdiff : ∃ c ty1 ty2, (c, ty1) ∈ t.cols ∧ (c, ty2) ∈ expected_columns ∧ ty1 ≠ ty2) :
    migrate_table_schema insertOk db table_name expected_columns =
      (db, MigrationOutcome.noOpMatched) :=
  migrate_noop insertOk db table_name expected_columns t hl hmatch

/-- Witness for C6: a live id column declared INTEGER against a descriptor
declaring id TEXT is treated as already matching. -/
theorem C6_type_change_not_detected_witness :
    (lookupTable wTypedDb "t" = some wTypedTable ∧
     colNamesMatch wTypedTable wChangedColumns ∧
     (∃ c ty1 ty2, (c, ty1) ∈ wTypedTable.cols ∧ (c, ty2) ∈ wChangedColumns ∧ ty1 ≠ ty2)) ∧
    migrate_table_schema acceptAll wTypedDb "t" wChangedColumns =
      (wTypedDb, MigrationOutcome.noOpMatched) :=
  ⟨⟨by decide, by decide, ⟨"id", "INTEGER", "TEXT", by decide, by decide, by decide⟩⟩,
   C6_type_change_not_detected acceptAll wTypedDb "t" wChangedColumns wTypedTable
     (by decide) (by decide)
     ⟨"id", "INTEGER", "TEXT", by decide, by decide, by decide⟩⟩

/-- Claim C7: a rebuild migration issues its statements in the fixed order
create-sibling, copy-common-data, drop-original, rename-sibling, and the
database produced by recreate_table is exactly the left fold of these
statements in that order; in particular the original table is dropped only
after the sibling has been created and populated. -/
theorem C7_rebuild_statement_order (insertOk : String → Row → Bool) (db : Db)
    (table_name : String) (expected_columns current_columns : List (String × String))
    (hcommon : (commonColumns expected_columns current_columns).isEmpty = false) :
    recreateOps expected_columns current_columns =
      [MigOp.createTemp, MigOp.copyCommon, MigOp.dropOrig, MigOp.renameTemp] ∧
    recreate_table insertOk db table_name expected_columns current_columns =
      (recreateOps expected_columns current_columns).foldl
        (applyMigOp insertOk table_name expected_columns current_columns) db := by
  have hops : recreateOps expected_columns current_columns =
      [MigOp.createTemp, MigOp.copyCommon, MigOp.dropOrig, MigOp.renameTemp] := by
    unfold recreateOps
    rw [if_neg (by rw [hcommon]; exact Bool.false_ne_true)]
  refine ⟨hops, ?_⟩
  rw [hops]
  rfl

/-- Witness for C7: the rebuild of the table t from (id, legacy) to
(id, fresh) has a non-empty common column set and follows the fixed order. -/
theorem C7_rebuild_statement_order_witness :
    (commonColumns wNewColumns wOldTable.cols).isEmpty = false ∧
    (recreateOps wNewColumns wOldTable.cols =
      [MigOp.createTemp, MigOp.copyCommon, MigOp.dropOrig, MigOp.renameTemp] ∧
    recreate_table acceptAll wOldDb "t" wNewColumns wOldTable.cols =
      (recreateOps wNewColumns wOldTable.cols).foldl
        (applyMigOp acceptAll "t" wNewColumns wOldTable.cols) wOldDb) :=
  ⟨by decide,
   C7_rebuild_statement_order acceptAll wOldDb "t" wNewColumns wOldTable.cols (by decide)⟩

/-- Claim C8: for an existing table whose live column-name set equals the
declared column-name set, reconcile returns the database completely unchanged
with the no-operation outcome: the table keeps exactly its schema and rows. -/
theorem C8_matching_table_left_untouched (insertOk : String → Row → Bool) (db : Db)
    (table_name : String) (expected_columns : List (String × String)) (t : Table)
    (hl : lookupTable db table_name = some t)
    (hmatch : colNamesMatch t expected_columns) :
    migrate_table_schema insertOk db table_name expected_columns =
      (db, MigrationOutcome.noOpMatched) ∧
    lookupTable (migrate_table_schema insertOk db table_name expected_columns).1 table_name =
      some t ∧
    tableRows (migrate_table_schema insertOk db table_name expected_columns).1 table_name =
      t.rows := by
  have h := migrate_noop insertOk db table_name expected_columns t hl hmatch
  refine ⟨h, ?_, ?_⟩
  · rw [h]
    exact hl
  · rw [h]
    unfold tableRows
    rw [hl]

/-- Witness for C8: a table whose single column name matches the descriptor
is left completely untouched. -/
theorem C8_matching_table_left_untouched_witness :
    (lookupTable wTypedDb "t" = some wTypedTable ∧
     colNamesMatch wTypedTable [("id", "INTEGER")]) ∧
    (migrate_table_schema acceptAll wTypedDb "t" [("id", "INTEGER")] =
      (wTypedDb, MigrationOutcome.noOpMatched) ∧
     lookupTable (migrate_table_schema acceptAll wTypedDb "t" [("id", "INTEGER")]).1 "t" =
      some wTypedTable ∧
     tableRows (migrate_table_schema acceptAll wTypedDb "t" [("id", "INTEGER")]).1 "t" =
      wTypedTable.rows) :=
  ⟨⟨by decide, by decide⟩,
   C8_matching_table_left_untouched acceptAll wTypedDb "t" [("id", "INTEGER")] wTypedTable
     (by decide) (by decide)⟩

/-- Claim C9: none of adjust_product_amount, update_product_amount and
add_inventory_events can make a stored product amount negative: the first
two clamp the written value at zero with max, and add_inventory_events
aborts (returning the original database) on any event whose negative delta
would take the current amount below zero. -/
theorem C9_amounts_never_negative (now : String) (db : Db)
    (product_id delta new_amount : Int) (events : List EventEntry)
    (title event_date : Option String) (hdb : amountsNonneg db) :
    amountsNonneg (adjust_product_amount now db product_id delta).1 ∧
    amountsNonneg (update_product_amount now db product_id new_amount).1 ∧
    amountsNonneg (add_inventory_events now db events title event_date).1 := by
  refine ⟨?_, ?_, ?_⟩
  · cases hf : findRowWhere db "products" "id" (Value.int product_id) with
    | none =>
      simp only [adjust_product_amount, hf]
      exact hdb
    | some current_product =>
      simp only [adjust_product_amount, hf]
      exact amountsNonneg_update_log now db product_id _ _ _ _ hdb (le_max_left 0 _)
  · cases hf : findRowWhere db "products" "id" (Value.int product_id) with
    | none =>
      simp only [update_product_amount, hf]
      exact hdb
    | some existing_product =>
      simp only [update_product_amount, hf]
      exact amountsNonneg_update_log now db product_id _ _ _ _ hdb (le_max_left 0 _)
  · cases hl : add_inventory_events_loop title event_date now db events with
    | ok db2 =>
      simp only [add_inventory_events, hl]
      exact add_loop_nonneg _ _ _ _ _ hdb _ hl
    | error e =>
      simp only [add_inventory_events, hl]
      exact hdb

/-- Witness for C9: a database with one product of amount 5 stays
non-negative under a minus-nine adjustment, a minus-two update, and a batch
removing three units. -/
theorem C9_amounts_never_negative_witness :
    amountsNonneg wCrudDb ∧
    (amountsNonneg (adjust_product_amount "2026-10-12" wCrudDb 1 (-9)).1 ∧
     amountsNonneg (update_product_amount "2026-10-12" wCrudDb 1 (-2)).1 ∧
     amountsNonneg (add_inventory_events "2026-10-12" wCrudDb wEvents none none).1) :=
  ⟨by decide,
   C9_amounts_never_negative "2026-10-12" wCrudDb 1 (-9) (-2) wEvents none none (by decide)⟩

/-- Claim C10: delete_ingredient and delete_product, called with an id that
matches no row, return the corresponding not-found error response and leave
the database completely unchanged: no row is deleted from the entity table
or from product_ingredients on the error path. -/
theorem C10_delete_missing_is_error_and_unchanged (db : Db)
    (ingredient_id product_id : Int)
    (hi : findRowWhere db "ingredients" "id" (Value.int ingredient_id) = none)
    (hp : findRowWhere db "products" "id" (Value.int product_id) = none) :
    delete_ingredient db ingredient_id = (db, error_response "Ingredient not found") ∧
    delete_product db product_id = (db, error_response "Product not found") := by
  constructor
  · simp only [delete_ingredient, hi]
  · simp only [delete_product, hp]

/-- Witness for C10: deleting ingredient 7 and product 99, neither of which
exists, errors out and leaves the database as it was. -/
theorem C10_delete_missing_is_error_and_unchanged_witness :
    (findRowWhere wCrudDb "ingredients" "id" (Value.int 7) = none ∧
     findRowWhere wCrudDb "products" "id" (Value.int 99) = none) ∧
    (delete_ingredient wCrudDb 7 = (wCrudDb, error_response "Ingredient not found") ∧
     delete_product wCrudDb 99 = (wCrudDb, error_response "Product not found")) :=
  ⟨⟨by decide, by decide⟩,
   C10_delete_missing_is_error_and_unchanged wCrudDb 7 99 (by decide) (by decide)⟩

end Inv
